import Mathlib

/-!
Verification development for the journal-scanner proxy server (`server.js`).

The program is JavaScript; strings are embedded as Lean `String` values,
with the JavaScript string primitives used by the code (`slice`, `trim`,
`includes`, `split`, `toLowerCase`, truthiness of strings, `||`) modelled
as explicit functions over `String` / `List Char` below.  Stateful React
component handlers are embedded as pure state-transition functions on an
explicit draft-record, returning the updated record (and, where a claim
needs it, the trace of workflow statuses visited and whether an external
gateway call was made).
-/

/-- JS `s.slice(0, n)` (also `String.prototype.slice` with a non-negative
end): the first `n` characters, or the whole string when shorter. -/
def jsTake (s : String) (n : Nat) : String := ⟨s.data.take n⟩

/-- JS `s.slice(-n)`: the last `n` characters, or the whole string when
shorter (negative start is clamped to 0). -/
def jsTakeLast (s : String) (n : Nat) : String := ⟨s.data.drop (s.data.length - n)⟩

/-- JS `s.length` (code units; all strings handled by the program are
within the BMP, so this coincides with the character count). -/
def jsLength (s : String) : Nat := s.data.length

/-- JS whitespace trimming, `s.trim()`: removes leading and trailing
whitespace characters. -/
def jsTrim (s : String) : String :=
  ⟨((s.data.dropWhile Char.isWhitespace).reverse.dropWhile Char.isWhitespace).reverse⟩

/-- JS `a || b` on strings: `b` when `a` is falsy (the empty string),
otherwise `a`. -/
def jsOrStr (a b : String) : String := if a = "" then b else a

/-- JS `a || b` where `a` may be `undefined` (modelled as `none`): the
default `b` when `a` is absent or the empty string. -/
def jsOr (a : Option String) (b : String) : String :=
  match a with
  | some s => jsOrStr s b
  | none => b

/-- JS `a || null` where `a` may be `undefined`: `none` when `a` is absent
or empty, otherwise the value. -/
def jsOrNull (a : Option String) : Option String :=
  match a with
  | some s => if s = "" then none else some s
  | none => none

/-- `leadsWith pat l` is `true` iff the list `l` starts with `pat`
(the model of JS `String.prototype.startsWith`). -/
def leadsWith : List Char → List Char → Bool
  | [], _ => true
  | _ :: _, [] => false
  | a :: pat, b :: l => a == b && leadsWith pat l

/-- Contiguous-substring test on character lists, the model of JS
`String.prototype.includes`: `true` iff `sub` occurs contiguously in `l`. -/
def containsSeq (l sub : List Char) : Bool :=
  match l with
  | [] => sub.isEmpty
  | _ :: t => leadsWith sub l || containsSeq t sub

/-- JS `s.includes(sub)`. -/
def jsIncludes (s sub : String) : Bool := containsSeq s.data sub.data

/-- JS `s.toLowerCase()` (the program only ever compares ASCII text
case-insensitively). -/
def jsToLower (s : String) : String := ⟨s.data.map Char.toLower⟩

/-- Scanner for `jsSplit`: walks the list a character at a time, cutting at
each leftmost non-overlapping occurrence of the (non-empty) separator
`sep`.  `fuel` only makes the recursion structural; it starts above the
list length, which every step decreases, so the `0` case is unreachable. -/
def splitSeqAux (sep : List Char) : Nat → List Char → List Char → List (List Char)
  | 0, l, acc => [acc.reverse ++ l]
  | Nat.succ f, l, acc =>
    match l with
    | [] => [acc.reverse]
    | a :: t =>
      if leadsWith sep l then
        acc.reverse :: splitSeqAux sep f (l.drop sep.length) []
      else
        splitSeqAux sep f t (a :: acc)

/-- JS `s.split(sep)` for a non-empty separator: the segments between the
leftmost non-overlapping occurrences of `sep` (leading, trailing and
adjacent separators produce empty segments, as in JS). -/
def jsSplit (s sep : String) : List String :=
  (splitSeqAux sep.data (s.data.length + 1) s.data []).map (fun l => ⟨l⟩)

-- ============================================================
-- Settings store (server.js v2, lines 742-826)
-- ============================================================

/-- The three persisted settings fields (`settings.json`). -/
structure Settings where
  notionToken : String
  notionDatabaseId : String
  googleVisionKey : String
deriving Repr, DecidableEq

/-- `maskKey` on character lists, transcribing server.js lines 771-776:
`if (!key) return ""; const pre = prefix && key.startsWith(prefix) ?
prefix : key.slice(0, 4); const suf = key.slice(-4);
return pre + "••••••••" + suf;`. -/
def maskChars (key pre : List Char) : List Char :=
  if key = [] then []
  else
    (if !pre.isEmpty && leadsWith pre key then pre else key.take 4)
      ++ List.replicate 8 '•' ++ key.drop (key.length - 4)

/-- `maskKey(key, prefix)` from server.js lines 771-776. -/
def maskKey (key pre : String) : String := ⟨maskChars key.data pre.data⟩

/-- The masked-value test used by the PUT handler:
`value.includes("••••")`. -/
def containsMarker (s : String) : Bool := jsIncludes s "••••"

/-- A partial settings update (`req.body` of `PUT /api/settings`); absent
JSON fields are `none`. -/
structure SettingsPatch where
  notionToken : Option String
  notionDatabaseId : Option String
  googleVisionKey : Option String
deriving Repr, DecidableEq

/-- The merge performed by `PUT /api/settings` (server.js lines 798-812):
```
const updated = { ...current };
if (incoming.notionToken && !incoming.notionToken.includes("••••"))
  updated.notionToken = incoming.notionToken;
if (incoming.notionDatabaseId !== undefined)
  updated.notionDatabaseId = incoming.notionDatabaseId;
if (incoming.googleVisionKey && !incoming.googleVisionKey.includes("••••"))
  updated.googleVisionKey = incoming.googleVisionKey;
```
-/
def mergeSettings (current : Settings) (incoming : SettingsPatch) : Settings :=
  let s1 :=
    match incoming.notionToken with
    | some t => if t ≠ "" && !containsMarker t then { current with notionToken := t } else current
    | none => current
  let s2 :=
    match incoming.notionDatabaseId with
    | some d => { s1 with notionDatabaseId := d }
    | none => s1
  match incoming.googleVisionKey with
  | some k => if k ≠ "" && !containsMarker k then { s2 with googleVisionKey := k } else s2
  | none => s2

/-- Outcome of reading the settings file, as observed by `loadSettings`:
the file may be absent (`fs.existsSync` false), the directory creation or
read may throw, or the raw contents are obtained. -/
inductive SettingsRead where
  | absent
  | failure (msg : String)
  | raw (contents : String)
deriving Repr, DecidableEq

/-- `loadSettings()` (server.js lines 742-753).  `JSON.parse` is the
external JSON library; it is passed in as a function returning `none`
when parsing throws.  The `catch` block swallows every error, so the
embedding is a total function: the defaults are returned for an absent
file, a read/mkdir error, or a parse error. -/
def loadSettings (parse : String → Option Settings) (read : SettingsRead) : Settings :=
  match read with
  | .absent => { notionToken := "", notionDatabaseId := "", googleVisionKey := "" }
  | .failure _ => { notionToken := "", notionDatabaseId := "", googleVisionKey := "" }
  | .raw c =>
    match parse c with
    | some s => s
    | none => { notionToken := "", notionDatabaseId := "", googleVisionKey := "" }

/-- The JSON body of `GET /api/settings` (server.js lines 788-796). -/
structure SettingsResponse where
  notionToken : String
  notionDatabaseId : String
  googleVisionKey : String
  isConfigured : Bool
deriving Repr, DecidableEq

/-- `GET /api/settings` (server.js lines 788-796):
```
res.json({
  notionToken: settings.notionToken ? maskKey(settings.notionToken, "ntn_") : "",
  notionDatabaseId: settings.notionDatabaseId || "",
  googleVisionKey: settings.googleVisionKey ? maskKey(settings.googleVisionKey, "AIza") : "",
  isConfigured: !!(settings.notionToken && settings.notionDatabaseId && settings.googleVisionKey),
});
```
-/
def getSettingsResponse (s : Settings) : SettingsResponse :=
  { notionToken := if s.notionToken = "" then "" else maskKey s.notionToken "ntn_"
    notionDatabaseId := jsOrStr s.notionDatabaseId ""
    googleVisionKey := if s.googleVisionKey = "" then "" else maskKey s.googleVisionKey "AIza"
    isConfigured := (s.notionToken != "") && (s.notionDatabaseId != "") && (s.googleVisionKey != "") }

/-- `isConfigured` as computed by the server and consumed by the client
app (`!!(a && b && c)`). -/
def isConfiguredOf (s : Settings) : Bool :=
  (s.notionToken != "") && (s.notionDatabaseId != "") && (s.googleVisionKey != "")

-- ============================================================
-- Client-side scan workflow (ScanView), server.js lines 990-1136
-- ============================================================

/-- The `STATUS` enumeration of the client app. -/
inductive Status where
  | idle
  | uploading
  | processing
  | ocr_complete
  | sending
  | complete
  | error
deriving Repr, DecidableEq

/-- `SAMPLE_OCR`, the fixed demonstration text used in demo mode. -/
def SAMPLE_OCR : String :=
  "March 14, 2026\n\nToday I spent time reflecting on how quickly life moves. The challenges feel bigger but so do the rewards.\n\nHad a good conversation about our upcoming service project. Everyone seems energized about next month. Need to follow up with the Hendersons about hosting.\n\nWork has been interesting — finally getting traction on the new framework. The team is starting to see how much faster we can make decisions.\n\nGrateful for a quiet evening at home."

/-- The mutable state of `ScanView` (its React `useState` hooks). -/
structure Draft where
  status : Status
  imageData : Option String
  fileName : String
  ocrText : String
  editedText : String
  entryTitle : String
  entryDate : String
  entryTags : String
  error : String
  progress : String
deriving Repr, DecidableEq

/-- An element of the session Entry Log (the objects prepended to
`entries`). -/
structure Entry where
  id : String
  title : String
  date : String
  tags : String
  ocrText : String
  imageData : Option String
  notionUrl : Option String
  createdAt : String
deriving Repr, DecidableEq

/-- The title derivation of `handleFile` (server.js lines 1087-1088):
`const fl = fullText.split("\n")[0]?.trim() || "";
setEntryTitle(fl.length > 60 ? fl.slice(0,60) + "..." : fl || "Journal Entry — " + entryDate);` -/
def deriveTitle (fullText entryDate : String) : String :=
  let fl := jsTrim ((jsSplit fullText "\n").headD "")
  if 60 < jsLength fl then jsTake fl 60 ++ "..."
  else jsOrStr fl ("Journal Entry — " ++ entryDate)

/-- Outcome of the `/api/ocr` gateway call as seen by `handleFile`:
either an error payload (the `d.error` / `d.message` branches) or the
extracted `fullTextAnnotation.text` (possibly empty). -/
inductive OcrOutcome where
  | failure (msg : String)
  | fullText (text : String)
deriving Repr, DecidableEq

/-- Result of one `handleFile` invocation: the final draft state, the
ordered list of workflow statuses from the initial one onward, and
whether the OCR gateway was invoked. -/
structure HandleFileResult where
  draft : Draft
  statusTrace : List Status
  calledOcrGateway : Bool
deriving Repr, DecidableEq

/-- `handleFile` of `ScanView` (server.js lines 1053-1093).  `file` is the
selected file's name (`none` models the `if (!file) return` guard),
`dataUri` the data-URI produced by the `FileReader`, and `isConfigured`
the server-reported configuration flag (`isConfiguredOf settings`; the
v1 variant at lines 210-243 is identical except that its demo-mode test
is `!settings.googleVisionKey` alone). -/
def handleFile (isConfigured : Bool) (file : Option String) (dataUri : String)
    (ocr : OcrOutcome) (d : Draft) : HandleFileResult :=
  match file with
  | none => ⟨d, [d.status], false⟩
  | some name =>
    let d1 := { d with error := "", fileName := name, status := .uploading,
                       progress := "Reading image..." }
    let d2 := { d1 with imageData := some dataUri, status := .processing,
                        progress := "Running handwriting OCR..." }
    if !isConfigured then
      ⟨{ d2 with ocrText := SAMPLE_OCR, editedText := SAMPLE_OCR,
                 entryTitle := "Journal Entry — " ++ d.entryDate,
                 status := .ocr_complete, progress := "" },
       [d.status, .uploading, .processing, .ocr_complete], false⟩
    else
      match ocr with
      | .failure msg =>
        ⟨{ d2 with error := "OCR Error: " ++ msg, status := .error, progress := "" },
         [d.status, .uploading, .processing, .error], true⟩
      | .fullText t =>
        if t = "" then
          ⟨{ d2 with error := "OCR Error: No text detected. Try a clearer photo.",
                     status := .error, progress := "" },
           [d.status, .uploading, .processing, .error], true⟩
        else
          ⟨{ d2 with ocrText := t, editedText := t,
                     entryTitle := deriveTitle t d.entryDate,
                     status := .ocr_complete, progress := "" },
           [d.status, .uploading, .processing, .ocr_complete], true⟩

/-- The body-to-blocks split of `sendToNotion` (server.js line 1113 /
line 260): `editedText.split("\n\n").filter(p => p.trim()).map(p => p.trim())`
(each kept paragraph's block carries `content: p.trim()`). -/
def bodyParagraphs (editedText : String) : List String :=
  ((jsSplit editedText "\n\n").filter (fun p => decide (jsTrim p ≠ ""))).map jsTrim

/-- The tag parse of `sendToNotion` (server.js line 1108 / line 255):
`entryTags.split(",").map(t => ({ name: t.trim() })).filter(t => t.name)`,
projected to the tag names. -/
def tagNames (entryTags : String) : List String :=
  ((jsSplit entryTags ",").map jsTrim).filter (fun t => decide (t ≠ ""))

/-- The gateway's answer to the create-page request as seen by
`sendToNotion`: a success payload (`page.id`, `page.url`, either possibly
absent) or a non-success HTTP status with the error body's optional
`message`. -/
inductive NotionResponse where
  | ok (pageId : Option String) (pageUrl : Option String)
  | err (status : Nat) (message : Option String)
deriving Repr, DecidableEq

/-- `sendToNotion` of `ScanView` (v1 variant, server.js lines 245-276; the
v2 variant at lines 1095-1131 differs only in sourcing the database id
from the server and in having no token pre-check).  `nowId` stands for
`Date.now().toString()` and `nowIso` for `new Date().toISOString()`.
Returns the updated draft and the updated Entry Log. -/
def sendToNotion (s : Settings) (resp : NotionResponse) (nowId nowIso : String)
    (d : Draft) (entries : List Entry) : Draft × List Entry :=
  if s.notionToken = "" ∨ s.notionDatabaseId = "" then
    ({ d with error := "Please configure Notion credentials in Settings." }, entries)
  else
    let d1 := { d with status := .sending, progress := "Creating Notion page...",
                       error := "" }
    match resp with
    | .err st msg =>
      ({ d1 with error := "Notion Error: " ++ jsOr msg ("Notion API error: " ++ toString st),
                 status := .error, progress := "" }, entries)
    | .ok pageId pageUrl =>
      let e : Entry :=
        { id := jsOr pageId nowId, title := d.entryTitle, date := d.entryDate,
          tags := d.entryTags, ocrText := d.editedText, imageData := d.imageData,
          notionUrl := jsOrNull pageUrl, createdAt := nowIso }
      ({ d1 with progress := "Entry created successfully!", status := .complete },
       e :: entries)

-- ============================================================
-- EntriesView search, server.js lines 1231-1238 / 382-389
-- ============================================================

/-- The per-entry match predicate of `EntriesView`:
`e.title.toLowerCase().includes(search.toLowerCase()) ||
 e.ocrText.toLowerCase().includes(search.toLowerCase()) ||
 (e.tags || "").toLowerCase().includes(search.toLowerCase())`. -/
def entryMatches (query : String) (e : Entry) : Bool :=
  jsIncludes (jsToLower e.title) (jsToLower query) ||
  jsIncludes (jsToLower e.ocrText) (jsToLower query) ||
  jsIncludes (jsToLower e.tags) (jsToLower query)

/-- The `filtered` list of `EntriesView`: `entries.filter(e => ...)`. -/
def searchEntries (query : String) (entries : List Entry) : List Entry :=
  entries.filter (entryMatches query)

-- ============================================================
-- Helper lemmas
-- ============================================================

/-- A list starts with itself. -/
lemma leadsWith_self (m : List Char) : leadsWith m m = true := by
  induction m with
  | nil => rfl
  | cons a t ih => simp [leadsWith, ih]

/-- The empty string occurs in every string. -/
lemma containsSeq_nil (l : List Char) : containsSeq l [] = true := by
  cases l with
  | nil => rfl
  | cons a t => simp [containsSeq, leadsWith]

/-- A string contains each of its suffixes. -/
lemma containsSeq_drop_left (p m : List Char) : containsSeq (p ++ m) m = true := by
  induction p with
  | nil =>
    cases m with
    | nil => rfl
    | cons a t => simp [containsSeq, leadsWith_self]
  | cons x p' ih => simp [containsSeq, ih]

/-- A prefix is in particular a contiguous substring. -/
lemma seg_of_pre {α : Type _} {t l : List α} (h : t <+: l) : t <:+: l := by
  obtain ⟨r, hr⟩ := h
  exact ⟨[], r, by simpa using hr⟩

/-- A contiguous substring of `l` is one of `a :: l`. -/
lemma seg_cons {α : Type _} {t l : List α} (a : α) (h : t <:+: l) : t <:+: a :: l := by
  obtain ⟨s, r, hr⟩ := h
  exact ⟨a :: s, r, by simp [hr]⟩

/-- A contiguous substring of `a :: l` either starts at the head or lies in
the tail. -/
lemma seg_cons_cases {α : Type _} {t : List α} {a : α} {l : List α}
    (h : t <:+: a :: l) : t <+: a :: l ∨ t <:+: l := by
  obtain ⟨s, r, hr⟩ := h
  cases s with
  | nil => exact Or.inl ⟨r, by simpa using hr⟩
  | cons x s' =>
    right
    simp only [List.cons_append] at hr
    injection hr with _ h2
    exact ⟨s', r, h2⟩

/-- The elements of a contiguous substring are elements of the string. -/
lemma seg_subset {α : Type _} {t l : List α} (h : t <:+: l) :
    ∀ a ∈ t, a ∈ l := by
  obtain ⟨s, r, hr⟩ := h
  intro a ha
  subst hr
  simp [ha]

/-- A `c`-free prefix of `p ++ replicate n c ++ q` (with `n > 0`) is a
prefix of `p`. -/
lemma pad_pre {α : Type _} {c : α} {n : Nat} (hn : 0 < n) :
    ∀ (p : List α) {t q : List α}, c ∉ t →
      t <+: p ++ (List.replicate n c ++ q) → t <+: p
  | [], t, q, hc, h => by
    cases t with
    | nil => exact ⟨[], rfl⟩
    | cons a t' =>
      obtain ⟨r, hr⟩ := h
      simp only [List.nil_append, List.cons_append] at hr
      cases n with
      | zero => exact absurd hn (by simp)
      | succ m =>
        rw [List.replicate_succ, List.cons_append] at hr
        injection hr with h1 _
        subst h1
        exact absurd (List.mem_cons_self a t') hc
  | b :: p', t, q, hc, h => by
    cases t with
    | nil => exact ⟨b :: p', rfl⟩
    | cons a t' =>
      obtain ⟨r, hr⟩ := h
      simp only [List.cons_append] at hr
      injection hr with h1 h2
      obtain ⟨r', hr'⟩ :=
        pad_pre hn p' (fun hm => hc (List.mem_cons_of_mem a hm)) ⟨r, h2⟩
      exact ⟨r', by simp [List.cons_append, h1, hr']⟩

/-- A `c`-free contiguous substring of `replicate n c ++ q` lies in `q`. -/
lemma pad_seg_nil {α : Type _} {c : α} :
    ∀ (n : Nat) {t q : List α}, c ∉ t →
      t <:+: List.replicate n c ++ q → t <:+: q
  | 0, t, q, _, h => by simpa using h
  | Nat.succ m, t, q, hc, h => by
    rw [List.replicate_succ, List.cons_append] at h
    rcases seg_cons_cases h with hpre | hseg
    · cases t with
      | nil => exact ⟨[], q, by simp⟩
      | cons a t' =>
        obtain ⟨r, hr⟩ := hpre
        simp only [List.cons_append] at hr
        injection hr with h1 _
        subst h1
        exact absurd (List.mem_cons_self a t') hc
    · exact pad_seg_nil m hc hseg

/-- A `c`-free contiguous substring of `p ++ replicate n c ++ q` (with
`n > 0`) lies wholly inside `p` or wholly inside `q`. -/
lemma pad_seg {α : Type _} {c : α} {n : Nat} (hn : 0 < n) :
    ∀ (p : List α) {t q : List α}, c ∉ t →
      t <:+: p ++ (List.replicate n c ++ q) → t <:+: p ∨ t <:+: q
  | [], t, q, hc, h => Or.inr (pad_seg_nil n hc (by simpa using h))
  | b :: p', t, q, hc, h => by
    rw [List.cons_append] at h
    rcases seg_cons_cases h with hpre | hseg
    · left
      have h' : t <+: (b :: p') ++ (List.replicate n c ++ q) := by
        simpa [List.cons_append] using hpre
      exact seg_of_pre (pad_pre hn (b :: p') hc h')
    · rcases pad_seg hn p' hc hseg with h1 | h2
      · exact Or.inl (seg_cons b h1)
      · exact Or.inr h2

-- ============================================================
-- Claim theorems
-- ============================================================

/-- C8: the settings load never raises: an absent file, a failed
read/mkdir, or unparseable contents all yield the all-empty Settings
value, and the parsed stored value is returned exactly when the file
exists and parses.  (`loadSettings` is a total Lean function, so "never
raises to its caller" is captured by the embedding itself.) -/
theorem loadSettings_fails_open (parse : String → Option Settings) (read : SettingsRead) :
    (read = .absent → loadSettings parse read = ⟨"", "", ""⟩) ∧
    (∀ m, read = .failure m → loadSettings parse read = ⟨"", "", ""⟩) ∧
    (∀ c, read = .raw c → parse c = none → loadSettings parse read = ⟨"", "", ""⟩) ∧
    (∀ c s, read = .raw c → parse c = some s → loadSettings parse read = s) := by
  refine ⟨?_, ?_, ?_, ?_⟩ <;> intros <;> subst_vars <;> simp [loadSettings, *]

/-- Witness for C8 at a concrete parse function and storage outcomes. -/
theorem loadSettings_fails_open_witness :
    loadSettings (fun c => if c = "ok" then some ⟨"a", "b", "c"⟩ else none) .absent = ⟨"", "", ""⟩ ∧
    loadSettings (fun c => if c = "ok" then some ⟨"a", "b", "c"⟩ else none) (.failure "EACCES") = ⟨"", "", ""⟩ ∧
    loadSettings (fun c => if c = "ok" then some ⟨"a", "b", "c"⟩ else none) (.raw "not json") = ⟨"", "", ""⟩ ∧
    loadSettings (fun c => if c = "ok" then some ⟨"a", "b", "c"⟩ else none) (.raw "ok") = ⟨"a", "b", "c"⟩ := by
  have h := loadSettings_fails_open (fun c => if c = "ok" then some ⟨"a", "b", "c"⟩ else none)
  exact ⟨(h .absent).1 rfl,
         (h (.failure "EACCES")).2.1 "EACCES" rfl,
         (h (.raw "not json")).2.2.1 "not json" rfl (by decide),
         (h (.raw "ok")).2.2.2 "ok" ⟨"a", "b", "c"⟩ rfl (by decide)⟩

/-- C10: `GET /api/settings` returns the database identifier in full and
unmasked, returns the token and the OCR key masked (via `maskKey`)
whenever non-empty and as the empty string otherwise, and reports
`isConfigured` true iff all three stored fields are non-empty. -/
theorem getSettings_masks (s : Settings) :
    (getSettingsResponse s).notionDatabaseId = s.notionDatabaseId ∧
    (s.notionToken ≠ "" → (getSettingsResponse s).notionToken = maskKey s.notionToken "ntn_") ∧
    (s.notionToken = "" → (getSettingsResponse s).notionToken = "") ∧
    (s.googleVisionKey ≠ "" → (getSettingsResponse s).googleVisionKey = maskKey s.googleVisionKey "AIza") ∧
    (s.googleVisionKey = "" → (getSettingsResponse s).googleVisionKey = "") ∧
    ((getSettingsResponse s).isConfigured = true ↔
      s.notionToken ≠ "" ∧ s.notionDatabaseId ≠ "" ∧ s.googleVisionKey ≠ "") := by
  refine ⟨?_, fun h => by simp [getSettingsResponse, h], fun h => by simp [getSettingsResponse, h],
          fun h => by simp [getSettingsResponse, h], fun h => by simp [getSettingsResponse, h], ?_⟩
  · by_cases h : s.notionDatabaseId = "" <;> simp [getSettingsResponse, jsOrStr, h]
  · simp [getSettingsResponse, Bool.and_eq_true, bne_iff_ne, and_assoc]

/-- Witness for C10 at a fully configured concrete Settings value. -/
theorem getSettings_masks_witness :
    (getSettingsResponse ⟨"ntn_secret12", "db42", "AIzaKey99"⟩).notionDatabaseId = "db42" ∧
    (getSettingsResponse ⟨"ntn_secret12", "db42", "AIzaKey99"⟩).notionToken = maskKey "ntn_secret12" "ntn_" ∧
    (getSettingsResponse ⟨"ntn_secret12", "db42", "AIzaKey99"⟩).googleVisionKey = maskKey "AIzaKey99" "AIza" ∧
    (getSettingsResponse ⟨"ntn_secret12", "db42", "AIzaKey99"⟩).isConfigured = true := by
  have h := getSettings_masks ⟨"ntn_secret12", "db42", "AIzaKey99"⟩
  exact ⟨h.1, h.2.1 (by decide), h.2.2.2.1 (by decide),
         h.2.2.2.2.2.mpr ⟨by decide, by decide, by decide⟩⟩

/-- Per-field characterization of the `PUT /api/settings` merge. -/
lemma mergeSettings_fields (current : Settings) (incoming : SettingsPatch) :
    (mergeSettings current incoming).notionToken =
      (match incoming.notionToken with
       | some t => if t ≠ "" && !containsMarker t then t else current.notionToken
       | none => current.notionToken) ∧
    (mergeSettings current incoming).notionDatabaseId =
      (match incoming.notionDatabaseId with
       | some v => v
       | none => current.notionDatabaseId) ∧
    (mergeSettings current incoming).googleVisionKey =
      (match incoming.googleVisionKey with
       | some k => if k ≠ "" && !containsMarker k then k else current.googleVisionKey
       | none => current.googleVisionKey) := by
  rcases incoming with ⟨tok, db, vis⟩
  cases tok <;> cases db <;> cases vis <;>
    refine ⟨?_, ?_, ?_⟩ <;>
    simp only [mergeSettings] <;>
    repeat' split <;> simp_all

/-- C1 counterexample: the claim fails for `notionDatabaseId` — an
incoming database id containing the masking marker replaces the stored
value. -/
theorem mergeSettings_masked_counterexample :
    containsMarker "x••••y" = true ∧
    (mergeSettings ⟨"tok", "db", "key"⟩ ⟨none, some "x••••y", none⟩).notionDatabaseId = "x••••y" ∧
    ("x••••y" : String) ≠ "db" := by decide

/-- C1 (amended): the mask-guard holds for `notionToken` and
`googleVisionKey` — an incoming value containing the masking marker (or
absent, or empty) leaves the stored value unchanged, and the field is
replaced exactly when the incoming value is present, non-empty and
marker-free — while `notionDatabaseId` is replaced whenever the incoming
value is present, regardless of the masking marker. -/
theorem mergeSettings_amended (current : Settings) (incoming : SettingsPatch) :
    (∀ t, incoming.notionToken = some t → containsMarker t = true →
      (mergeSettings current incoming).notionToken = current.notionToken) ∧
    (∀ t, incoming.notionToken = some t → t ≠ "" → containsMarker t = false →
      (mergeSettings current incoming).notionToken = t) ∧
    (incoming.notionToken = none ∨ incoming.notionToken = some "" →
      (mergeSettings current incoming).notionToken = current.notionToken) ∧
    (∀ k, incoming.googleVisionKey = some k → containsMarker k = true →
      (mergeSettings current incoming).googleVisionKey = current.googleVisionKey) ∧
    (∀ k, incoming.googleVisionKey = some k → k ≠ "" → containsMarker k = false →
      (mergeSettings current incoming).googleVisionKey = k) ∧
    (incoming.googleVisionKey = none ∨ incoming.googleVisionKey = some "" →
      (mergeSettings current incoming).googleVisionKey = current.googleVisionKey) ∧
    (∀ v, incoming.notionDatabaseId = some v →
      (mergeSettings current incoming).notionDatabaseId = v) ∧
    (incoming.notionDatabaseId = none →
      (mergeSettings current incoming).notionDatabaseId = current.notionDatabaseId) := by
  obtain ⟨h1, h2, h3⟩ := mergeSettings_fields current incoming
  refine ⟨fun t ht hm => ?_, fun t ht hne hm => ?_, fun h => ?_,
          fun k hk hm => ?_, fun k hk hne hm => ?_, fun h => ?_,
          fun v hv => ?_, fun h => ?_⟩
  · rw [h1, ht]; simp [hm]
  · rw [h1, ht]; simp [hne, hm]
  · rcases h with h | h <;> simp [h1, h]
  · rw [h3, hk]; simp [hm]
  · rw [h3, hk]; simp [hne, hm]
  · rcases h with h | h <;> simp [h3, h]
  · rw [h2, hv]
  · rw [h2, h]

/-- Witness for C1 (amended) at a concrete store and update request. -/
theorem mergeSettings_amended_witness :
    (mergeSettings ⟨"oldT", "oldD", "oldK"⟩
      ⟨some "ntn_••••••••ab12", some "newdb", some ""⟩).notionToken = "oldT" ∧
    (mergeSettings ⟨"oldT", "oldD", "oldK"⟩
      ⟨some "ntn_••••••••ab12", some "newdb", some ""⟩).notionDatabaseId = "newdb" ∧
    (mergeSettings ⟨"oldT", "oldD", "oldK"⟩
      ⟨some "ntn_••••••••ab12", some "newdb", some ""⟩).googleVisionKey = "oldK" := by
  obtain ⟨h1, h2, h3, h4, h5, h6, h7, h8⟩ :=
    mergeSettings_amended ⟨"oldT", "oldD", "oldK"⟩
      ⟨some "ntn_••••••••ab12", some "newdb", some ""⟩
  exact ⟨h1 "ntn_••••••••ab12" rfl (by decide), h7 "newdb" rfl, h6 (Or.inr rfl)⟩

/-- C7: tag parsing splits the input on commas, trims every segment and
drops segments that are empty after trimming, preserving order (the
result is a sublist of the trimmed segment sequence, every kept tag is
non-empty, and the concrete input `" a, b ,, c "` parses to
`["a", "b", "c"]`). -/
theorem tagNames_spec (s : String) :
    tagNames " a, b ,, c " = ["a", "b", "c"] ∧
    (tagNames s).Sublist ((jsSplit s ",").map jsTrim) ∧
    (∀ t ∈ tagNames s, t ≠ "") := by
  refine ⟨by decide, ?_, fun t ht => ?_⟩
  · simp only [tagNames]
    exact List.filter_sublist _
  · simp only [tagNames] at ht
    exact of_decide_eq_true (List.mem_filter.mp ht).2

/-- Witness for C7 at the spec's concrete input. -/
theorem tagNames_spec_witness : tagNames " a, b ,, c " = ["a", "b", "c"] ∧
    ("a" : String) ≠ "" := by
  exact ⟨(tagNames_spec "").1, fun h => by
    exact absurd ((tagNames_spec " a, b ,, c ").2.2 "a" (by rw [(tagNames_spec "").1]; decide)) (by simp [h])⟩

/-- C6: the body-to-blocks splitting cuts the edited text at occurrences
of two consecutive line breaks, trims each segment and drops segments
that are empty after trimming (it equals trim-then-drop-empties over the
raw split, every produced paragraph is non-empty, and the concrete text
`"Line one\n\nLine two\n\nLine three"` yields exactly three non-empty
paragraph segments). -/
theorem bodyParagraphs_spec (text : String) :
    bodyParagraphs text =
      ((jsSplit text "\n\n").map jsTrim).filter (fun p => decide (p ≠ "")) ∧
    (∀ p ∈ bodyParagraphs text, p ≠ "") ∧
    bodyParagraphs "Line one\n\nLine two\n\nLine three" = ["Line one", "Line two", "Line three"] := by
  have hchar : bodyParagraphs text =
      ((jsSplit text "\n\n").map jsTrim).filter (fun p => decide (p ≠ "")) := by
    simp only [bodyParagraphs, List.filter_map]
    rfl
  refine ⟨hchar, fun p hp => ?_, by decide⟩
  rw [hchar] at hp
  exact of_decide_eq_true (List.mem_filter.mp hp).2

/-- Witness for C6 at the spec's concrete input. -/
theorem bodyParagraphs_spec_witness :
    bodyParagraphs "Line one\n\nLine two\n\nLine three" = ["Line one", "Line two", "Line three"] ∧
    ("Line one" : String) ≠ "" :=
  ⟨(bodyParagraphs_spec "").2.2,
   (bodyParagraphs_spec "Line one\n\nLine two\n\nLine three").2.1 "Line one"
     (by rw [(bodyParagraphs_spec "").2.2]; decide)⟩

/-- C9: the Entry Log search with the empty query returns all entries
unchanged and in order, and a query matching no entry (on title,
transcription text, or tags string, case-insensitively) returns the
empty sequence. -/
theorem searchEntries_spec :
    (∀ entries : List Entry, searchEntries "" entries = entries) ∧
    (∀ (q : String) (entries : List Entry),
      (∀ e ∈ entries, entryMatches q e = false) → searchEntries q entries = []) := by
  constructor
  · intro entries
    simp only [searchEntries]
    refine List.filter_eq_self.mpr fun e _ => ?_
    simp only [entryMatches, jsIncludes, jsToLower]
    have hnil : (("" : String).data.map Char.toLower) = [] := rfl
    rw [hnil]
    simp [containsSeq_nil]
  · intro q entries h
    simp only [searchEntries]
    exact List.filter_eq_nil_iff.mpr fun e he => by simp [h e he]

/-- Witness for C9 on a one-entry log: the empty query is the identity
and a query matching nothing returns the empty sequence. -/
theorem searchEntries_spec_witness :
    searchEntries "" [⟨"1", "Morning pages", "2026-03-14", "journal, personal",
      "Grateful today", none, none, "t0"⟩] =
      [⟨"1", "Morning pages", "2026-03-14", "journal, personal",
        "Grateful today", none, none, "t0"⟩] ∧
    searchEntries "zzz" [⟨"1", "Morning pages", "2026-03-14", "journal, personal",
      "Grateful today", none, none, "t0"⟩] = [] := by
  refine ⟨searchEntries_spec.1 _, searchEntries_spec.2 "zzz" _ fun e he => ?_⟩
  rw [List.mem_singleton.mp he]
  decide

/-- C5: writing `fl` for the trimmed first line of the OCR text, the
derived title equals `fl` when `fl` is non-empty and at most 60
characters long; equals the first 60 characters of `fl` followed by
`"..."` (hence has exactly 63 characters) when `fl` exceeds 60
characters; and equals `"Journal Entry — "` followed by the draft date
when `fl` is empty. -/
theorem deriveTitle_spec (text date : String) :
    (jsTrim ((jsSplit text "\n").headD "") ≠ "" →
      jsLength (jsTrim ((jsSplit text "\n").headD "")) ≤ 60 →
      deriveTitle text date = jsTrim ((jsSplit text "\n").headD "")) ∧
    (60 < jsLength (jsTrim ((jsSplit text "\n").headD "")) →
      deriveTitle text date = jsTake (jsTrim ((jsSplit text "\n").headD "")) 60 ++ "..." ∧
      jsLength (deriveTitle text date) = 63) ∧
    (jsTrim ((jsSplit text "\n").headD "") = "" →
      deriveTitle text date = "Journal Entry — " ++ date) := by
  refine ⟨fun hne hle => ?_, fun hgt => ⟨?_, ?_⟩, fun he => ?_⟩
  · rw [deriveTitle, if_neg (by omega), jsOrStr, if_neg hne]
  · rw [deriveTitle, if_pos hgt]
  · rw [deriveTitle, if_pos hgt]
    simp only [jsLength, jsTake, String.data_append, List.length_append, List.length_take]
    have h3 : ("..." : String).data.length = 3 := by decide
    rw [h3, Nat.min_eq_left (by exact Nat.le_of_lt hgt)]
  · have hcond : ¬ 60 < jsLength (jsTrim ((jsSplit text "\n").headD "")) := by
      rw [he]; decide
    rw [deriveTitle, if_neg hcond, jsOrStr, if_pos he]

/-- Witness for C5: an 80-character first line yields a 63-character
title of the truncate-plus-ellipsis form, and an empty first line yields
the date fallback. -/
theorem deriveTitle_spec_witness :
    deriveTitle "AAAAAAAAAAAAAAAAAAAAAAAAAAAAAAAAAAAAAAAAAAAAAAAAAAAAAAAAAAAAAAAAAAAAAAAAAAAAAAAA" "2026-03-14" =
      jsTake (jsTrim ((jsSplit "AAAAAAAAAAAAAAAAAAAAAAAAAAAAAAAAAAAAAAAAAAAAAAAAAAAAAAAAAAAAAAAAAAAAAAAAAAAAAAAA" "\n").headD "")) 60 ++ "..." ∧
    jsLength (deriveTitle "AAAAAAAAAAAAAAAAAAAAAAAAAAAAAAAAAAAAAAAAAAAAAAAAAAAAAAAAAAAAAAAAAAAAAAAAAAAAAAAA" "2026-03-14") = 63 ∧
    deriveTitle "\nHello" "2026-03-14" = "Journal Entry — " ++ "2026-03-14" := by
  have h1 := (deriveTitle_spec "AAAAAAAAAAAAAAAAAAAAAAAAAAAAAAAAAAAAAAAAAAAAAAAAAAAAAAAAAAAAAAAAAAAAAAAAAAAAAAAA" "2026-03-14").2.1 (by decide)
  have h2 := (deriveTitle_spec "\nHello" "2026-03-14").2.2 (by decide)
  exact ⟨h1.1, h1.2, h2⟩

/-- C3: when the OCR credential is absent (so the app is not configured),
submitting an image drives the workflow Idle → Uploading → Processing →
ReviewReady (OCR_COMPLETE), seeds both the OCR text and the editable
text with the fixed demonstration text, never invokes the OCR gateway,
and ends in the same workflow status as a real successful OCR run. -/
theorem demoMode_flow (s : Settings) (name dataUri : String) (ocr : OcrOutcome) (d : Draft)
    (hkey : s.googleVisionKey = "") (hidle : d.status = .idle) :
    (handleFile (isConfiguredOf s) (some name) dataUri ocr d).statusTrace =
      [Status.idle, .uploading, .processing, .ocr_complete] ∧
    (handleFile (isConfiguredOf s) (some name) dataUri ocr d).draft.ocrText = SAMPLE_OCR ∧
    (handleFile (isConfiguredOf s) (some name) dataUri ocr d).draft.editedText = SAMPLE_OCR ∧
    (handleFile (isConfiguredOf s) (some name) dataUri ocr d).calledOcrGateway = false ∧
    (handleFile (isConfiguredOf s) (some name) dataUri ocr d).draft.status = .ocr_complete ∧
    (∀ t, t ≠ "" → (handleFile (isConfiguredOf s) (some name) dataUri ocr d).draft.status =
      (handleFile true (some name) dataUri (.fullText t) d).draft.status) := by
  have hconf : isConfiguredOf s = false := by
    simp [isConfiguredOf, hkey]
  refine ⟨by simp [handleFile, hconf, hidle], by simp [handleFile, hconf],
          by simp [handleFile, hconf], by simp [handleFile, hconf],
          by simp [handleFile, hconf], fun t ht => ?_⟩
  simp [handleFile, hconf, ht]

/-- Witness for C3 at a concrete unconfigured store and draft. -/
theorem demoMode_flow_witness :
    (handleFile (isConfiguredOf ⟨"ntn_tok", "db1", ""⟩) (some "page.jpg") "data:image/jpeg;base64,Ab1"
      (.failure "boom") ⟨.idle, none, "", "", "", "", "2026-03-14", "", "", ""⟩).statusTrace =
      [Status.idle, .uploading, .processing, .ocr_complete] ∧
    (handleFile (isConfiguredOf ⟨"ntn_tok", "db1", ""⟩) (some "page.jpg") "data:image/jpeg;base64,Ab1"
      (.failure "boom") ⟨.idle, none, "", "", "", "", "2026-03-14", "", "", ""⟩).draft.editedText = SAMPLE_OCR ∧
    (handleFile (isConfiguredOf ⟨"ntn_tok", "db1", ""⟩) (some "page.jpg") "data:image/jpeg;base64,Ab1"
      (.failure "boom") ⟨.idle, none, "", "", "", "", "2026-03-14", "", "", ""⟩).calledOcrGateway = false ∧
    (handleFile (isConfiguredOf ⟨"ntn_tok", "db1", ""⟩) (some "page.jpg") "data:image/jpeg;base64,Ab1"
      (.failure "boom") ⟨.idle, none, "", "", "", "", "2026-03-14", "", "", ""⟩).draft.status =
      (handleFile true (some "page.jpg") "data:image/jpeg;base64,Ab1"
        (.fullText "Hello") ⟨.idle, none, "", "", "", "", "2026-03-14", "", "", ""⟩).draft.status := by
  have h := demoMode_flow ⟨"ntn_tok", "db1", ""⟩ "page.jpg" "data:image/jpeg;base64,Ab1"
    (.failure "boom") ⟨.idle, none, "", "", "", "", "2026-03-14", "", "", ""⟩ rfl rfl
  exact ⟨h.1, h.2.2.1, h.2.2.2.1, h.2.2.2.2.2 "Hello" (by decide)⟩

/-- C4: with Notion credentials configured, a failing submit (the gateway
answers with a non-success status and a message) moves the workflow to
the Error state with an error text containing the provider's message,
leaves every draft field (title, date, tags, edited text, image)
unchanged, and leaves the Entry Log unchanged. -/
theorem sendToNotion_failure (s : Settings) (st : Nat) (msg : String)
    (nowId nowIso : String) (d : Draft) (entries : List Entry)
    (htok : s.notionToken ≠ "") (hdb : s.notionDatabaseId ≠ "") :
    (sendToNotion s (.err st (some msg)) nowId nowIso d entries).1.status = .error ∧
    jsIncludes (sendToNotion s (.err st (some msg)) nowId nowIso d entries).1.error msg = true ∧
    (sendToNotion s (.err st (some msg)) nowId nowIso d entries).1.entryTitle = d.entryTitle ∧
    (sendToNotion s (.err st (some msg)) nowId nowIso d entries).1.entryDate = d.entryDate ∧
    (sendToNotion s (.err st (some msg)) nowId nowIso d entries).1.entryTags = d.entryTags ∧
    (sendToNotion s (.err st (some msg)) nowId nowIso d entries).1.editedText = d.editedText ∧
    (sendToNotion s (.err st (some msg)) nowId nowIso d entries).1.imageData = d.imageData ∧
    (sendToNotion s (.err st (some msg)) nowId nowIso d entries).2 = entries := by
  have hcred : ¬(s.notionToken = "" ∨ s.notionDatabaseId = "") := by
    rintro (h | h) <;> [exact htok h; exact hdb h]
  simp only [sendToNotion, if_neg hcred]
  refine ⟨trivial, ?_, trivial, trivial, trivial, trivial, trivial, trivial⟩
  by_cases hm : msg = ""
  · subst hm
    simp only [jsIncludes]
    exact containsSeq_nil _
  · simp only [jsOr, jsOrStr, if_neg hm, jsIncludes, String.data_append]
    exact containsSeq_drop_left _ _

/-- Witness for C4: a 401 "Unauthorized" reply leaves a populated draft
and the Entry Log intact and surfaces the provider's message. -/
theorem sendToNotion_failure_witness :
    (sendToNotion ⟨"ntn_tok", "db1", ""⟩ (.err 401 (some "Unauthorized")) "170" "t1"
      ⟨.ocr_complete, some "data:x", "p.jpg", "raw", "edited", "My day", "2026-03-14", "a,b", "", ""⟩
      []).1.status = .error ∧
    jsIncludes (sendToNotion ⟨"ntn_tok", "db1", ""⟩ (.err 401 (some "Unauthorized")) "170" "t1"
      ⟨.ocr_complete, some "data:x", "p.jpg", "raw", "edited", "My day", "2026-03-14", "a,b", "", ""⟩
      []).1.error "Unauthorized" = true ∧
    (sendToNotion ⟨"ntn_tok", "db1", ""⟩ (.err 401 (some "Unauthorized")) "170" "t1"
      ⟨.ocr_complete, some "data:x", "p.jpg", "raw", "edited", "My day", "2026-03-14", "a,b", "", ""⟩
      []).1.entryTitle = "My day" ∧
    (sendToNotion ⟨"ntn_tok", "db1", ""⟩ (.err 401 (some "Unauthorized")) "170" "t1"
      ⟨.ocr_complete, some "data:x", "p.jpg", "raw", "edited", "My day", "2026-03-14", "a,b", "", ""⟩
      []).2 = [] := by
  have h := sendToNotion_failure ⟨"ntn_tok", "db1", ""⟩ 401 "Unauthorized" "170" "t1"
    ⟨.ocr_complete, some "data:x", "p.jpg", "raw", "edited", "My day", "2026-03-14", "a,b", "", ""⟩
    [] (by decide) (by decide)
  exact ⟨h.1, h.2.1, h.2.2.1, h.2.2.2.2.2.2.2⟩

/-- C2 counterexample: for a secret that itself contains the masking
character, the masked output contains a 5-character substring of the
secret (`"abcd•"`) that lies neither in the revealed 4-character prefix
nor in the revealed 4-character suffix. -/
theorem maskChars_reveal_counterexample :
    8 ≤ ("abcd•efgh" : String).data.length ∧
    ("abcd•" : String).data <:+: maskChars ("abcd•efgh" : String).data [] ∧
    ("abcd•" : String).data <:+: ("abcd•efgh" : String).data ∧
    ¬ ("abcd•" : String).data <:+: ("abcd•efgh" : String).data.take 4 ∧
    ¬ ("abcd•" : String).data <:+:
        ("abcd•efgh" : String).data.drop (("abcd•efgh" : String).data.length - 4) := by
  decide

/-- C2 (amended): masking the empty secret yields the empty string; a
non-empty secret masks to the revealed piece (the supplied vendor prefix
when the secret starts with it, else the first 4 characters) followed by
the fixed 8-character masking marker followed by the last 4 characters;
and — for secrets of length at least 8 that do not themselves contain
the masking character `•` — any common contiguous substring of the
masked output and the secret lies wholly inside the revealed piece or
wholly inside the 4-character suffix. -/
theorem maskChars_masks (key pre : List Char) :
    maskChars [] pre = [] ∧
    (key ≠ [] → maskChars key pre =
      (if !pre.isEmpty && leadsWith pre key then pre else key.take 4)
        ++ List.replicate 8 '•' ++ key.drop (key.length - 4)) ∧
    (8 ≤ key.length → '•' ∉ key → ∀ t, t <:+: maskChars key pre → t <:+: key →
      t <:+: (if !pre.isEmpty && leadsWith pre key then pre else key.take 4) ∨
      t <:+: key.drop (key.length - 4)) := by
  refine ⟨by simp [maskChars], fun hne => by rw [maskChars, if_neg hne],
          fun hlen hb t ht htk => ?_⟩
  have hne : key ≠ [] := by
    intro h
    rw [h] at hlen
    simp at hlen
  rw [maskChars, if_neg hne, List.append_assoc] at ht
  have hbt : '•' ∉ t := fun hc => hb (seg_subset htk _ hc)
  exact pad_seg (by norm_num) _ hbt ht

/-- Witness for C2 (amended) at a concrete vendor-style key. -/
theorem maskChars_masks_witness :
    maskChars [] ("ntn_" : String).data = [] ∧
    maskChars ("ntn_secret99" : String).data ("ntn_" : String).data =
      (if !(("ntn_" : String).data).isEmpty &&
          leadsWith ("ntn_" : String).data ("ntn_secret99" : String).data
       then ("ntn_" : String).data else ("ntn_secret99" : String).data.take 4)
        ++ List.replicate 8 '•'
        ++ ("ntn_secret99" : String).data.drop (("ntn_secret99" : String).data.length - 4) ∧
    (("t99" : String).data <:+:
      (if !(("ntn_" : String).data).isEmpty &&
          leadsWith ("ntn_" : String).data ("ntn_secret99" : String).data
       then ("ntn_" : String).data else ("ntn_secret99" : String).data.take 4) ∨
     ("t99" : String).data <:+:
      ("ntn_secret99" : String).data.drop (("ntn_secret99" : String).data.length - 4)) := by
  have h := maskChars_masks ("ntn_secret99" : String).data ("ntn_" : String).data
  exact ⟨(maskChars_masks [] ("ntn_" : String).data).1,
         h.2.1 (by decide),
         h.2.2 (by decide) (by decide) ("t99" : String).data (by decide) (by decide)⟩
